import Mathlib

/-!
Verification of the rolldown AST-scanner and semantic-preprocessor core
(`crates/rolldown/src/ast_scanner/impl_visit.rs` and
`crates/rolldown/src/utils/pre_process_ecma_ast.rs`) against its
natural-language specification.

The Rust visitor is shallowly embedded: the stateful single-pass traversal
becomes explicit state passing over an `ScanState` record; the external
oxc semantic data (symbol resolution, scopes) is an input, carried on
identifier nodes and in a read-only `ScanCtx`; machine integers are `Nat`
(spans are byte offsets, never overflowing in any claim here).
-/

namespace Rolldown

/-- Byte span of a syntax node (oxc `Span`); `end` is spelled `stop`. -/
structure Span where
  start : Nat
  stop : Nat
deriving DecidableEq, Repr

/-- oxc `Span::is_empty`: the range is degenerate, `start == end`. -/
def Span.is_empty (s : Span) : Bool := s.start == s.stop

/-- oxc `Span::contains_inclusive`: `other` lies inside `s`, ends inclusive. -/
def Span.contains_inclusive (s other : Span) : Bool :=
  decide (s.start ≤ other.start ∧ other.stop ≤ s.stop)

/-- Modelled from the spec: `is_unspanned` (rolldown span extension, not under
`src/`). Per the spec's data model, a span is unspanned exactly when it is
empty: "`source_span`: byte range of the request literal (empty/unspanned for
synthesized nodes)", and member paths are recorded only when "the whole access
expression has a non-empty span (synthesized/unspanned nodes are excluded)". -/
def Span.isUnspanned (s : Span) : Bool := Span.is_empty s

/-- `ImportRecordMeta` flag set, currently {IsUnspannedImport, IsRequireUnused}. -/
structure ImportRecordMeta where
  isUnspannedImport : Bool
  isRequireUnused : Bool
deriving DecidableEq, Repr

/-- `ImportRecordMeta::empty()`. -/
def ImportRecordMeta.empty : ImportRecordMeta := ⟨false, false⟩

/-- `ImportKind` of an import record. -/
inductive ImportKind : Type where
  | staticImport
  | dynamicImport
  | require
deriving DecidableEq, Repr

/-- `ImportRecord`: one per static import, dynamic `import()`, or `require()`
call with a literal string request. -/
structure ImportRecord where
  request : String
  kind : ImportKind
  sourceSpan : Span
  meta : ImportRecordMeta
deriving DecidableEq, Repr

/-- Output format of the bundle (`options.format`). Only the distinction the
scanner consumes is modelled: whether the format natively preserves ESM
import/export syntax. -/
inductive OutputFormat : Type where
  | esm
  | cjs
  | iife
  | umd
deriving DecidableEq, Repr

/-- Modelled from the spec: `keep_esm_import_export_syntax` (defined on the
format type outside `src/`). The spec's external-interface section says the
options expose the "output format (whether it natively preserves ESM
import/export syntax — governs top-level-await legality)"; only the `esm`
format preserves that syntax. -/
def OutputFormat.keepEsmImportExport : OutputFormat → Bool
  | .esm => true
  | .cjs => false
  | .iife => false
  | .umd => false

/-- The slice of `NormalizedBundlerOptions` the scanner reads. -/
structure BundlerOptions where
  format : OutputFormat
deriving DecidableEq, Repr

/-- Scan-time diagnostics (`BuildDiagnostic`), reduced to the variants the
scanner emits: the top-level-await unsupported-feature error carries the
offending format (the source message interpolates `{format}`), the
const-assign error and the eval warning carry their spans. -/
inductive Diagnostic : Type where
  | unsupportedTopLevelAwait (format : OutputFormat) (span : Span)
  | forbidConstAssign (span : Span)
  | evalWarning (span : Span)
deriving DecidableEq, Repr

/-- Whether a diagnostic is the top-level-await (or for-await) error. -/
def Diagnostic.isTopLevelAwaitError : Diagnostic → Bool
  | .unsupportedTopLevelAwait _ _ => true
  | _ => false

/-- `StmtInfo`: one per top-level statement, created during the scan. -/
structure StmtInfo where
  stmtIdx : Option Nat
  sideEffect : Bool
  declaredSymbols : List Nat
  referencedSymbols : List Nat
deriving DecidableEq, Repr

/-- `StmtInfo::default()`, what `std::mem::take` leaves behind. -/
def StmtInfo.default : StmtInfo := ⟨none, false, [], []⟩

/-- A member-access-path fact: root import symbol, property names in source
order, and the span of the full access expression. -/
structure MemberExprRef where
  symbol : Nat
  props : List String
  span : Span
deriving DecidableEq, Repr

/-- Result of oxc semantic analysis for one identifier reference: the symbol
it is bound to, if any; `none` means the reference is unresolved (a global).
`isConst` records whether the binding is a `const` binding (consumed by the
const-assignment validation). -/
structure BindingInfo where
  symbol : Nat
  isConst : Bool
deriving DecidableEq, Repr

/-- A binding identifier (declaration site) with its oxc symbol id. -/
structure BindingIdent where
  name : String
  span : Span
  symbolId : Nat
deriving DecidableEq, Repr

/-!
The AST, restricted to the node kinds the scanner's visitor methods inspect
(oxc node names kept). Identifier references carry the result of oxc semantic
analysis (`binding`) and their `reference_id`, since symbol resolution is an
external input to the scanner. Sequence expressions are non-empty by
construction, mirroring the parser invariant asserted by the source's
`.expect("should have at least one child")`.
-/

mutual

inductive Expr : Type where
  | identRef (name : String) (span : Span) (binding : Option BindingInfo) (referenceId : Nat)
  | stringLit (value : String) (span : Span)
  | numberLit (span : Span)
  | staticMember (object : Expr) (property : String) (span : Span)
  | computedMember (object : Expr) (index : Expr) (span : Span)
  | callExpr (callee : Expr) (arguments : List Expr) (span : Span)
  | importExpr (source : Expr) (span : Span)
  | seqExpr (first : Expr) (rest : List Expr) (span : Span)
  | parenExpr (inner : Expr) (span : Span)
  | awaitExpr (argument : Expr) (span : Span)
  | assignExpr (left : Expr) (right : Expr) (span : Span)
  | funcExpr (body : List Stmt) (span : Span)

inductive Stmt : Type where
  | exprStmt (e : Expr) (span : Span)
  | varDecl (declarations : List Declarator) (span : Span)
  | classDecl (id : Option BindingIdent) (body : List ClassElem) (span : Span)
  | forOfStmt (isAwait : Bool) (right : Expr) (body : Stmt) (span : Span)
  | importDecl (request : String) (requestSpan : Span) (importedSymbols : List Nat) (span : Span)

inductive Declarator : Type where
  | mk (id : BindingIdent) (init : Option Expr)

inductive ClassElem : Type where
  | propertyDef (value : Option Expr) (span : Span)
  | methodDef (body : List Stmt) (span : Span)

end

/-- oxc `GetSpan::span`: every node stores its span. -/
def Expr.span : Expr → Span
  | .identRef _ s _ _ => s
  | .stringLit _ s => s
  | .numberLit s => s
  | .staticMember _ _ s => s
  | .computedMember _ _ s => s
  | .callExpr _ _ s => s
  | .importExpr _ s => s
  | .seqExpr _ _ s => s
  | .parenExpr _ s => s
  | .awaitExpr _ s => s
  | .assignExpr _ _ s => s
  | .funcExpr _ s => s

/-- oxc `AstKind` tags pushed on the visit path (`enter_node`). Only the three
kinds the require-usage walk distinguishes are represented precisely; the
sequence tag carries its node's operands because the walk reads
`seq_expr.expressions.last()`. Every other ancestor kind is `otherKind` with
its oxc name, since the walk treats all of them uniformly. -/
inductive AstKind : Type where
  | parenthesizedExpression (span : Span)
  | expressionStatement (span : Span)
  | sequenceExpression (first : Expr) (rest : List Expr) (span : Span)
  | otherKind (tag : String)

/-- A parsed module: top-level statements plus the optional hashbang span. -/
structure Program where
  body : List Stmt
  hashbang : Option Span

/-- Read-only per-scan context: the bundler options view and the oxc scope
tree data the scanner consults (`self.scopes`). `isRootSymbol` answers
whether a symbol's declaring scope is the module (root) scope;
`resolvedReferences` gives the precomputed reference ids resolved to a
symbol (`scopes.resolved_references`). -/
structure ScanCtx where
  options : Option BundlerOptions
  isRootSymbol : Nat → Bool
  resolvedReferences : Nat → List Nat

/-- The mutable scanner result and per-statement accumulator threaded through
the traversal (`AstScanner` fields and `ScanResult` fields touched by
`impl_visit.rs`). `stmtInfos` is kept outside: `result.stmt_infos` is only
ever written by `visit_program` after each statement's traversal. -/
structure ScanState where
  curStmtInfo : StmtInfo
  importRecords : List ImportRecord
  importsMap : List (Span × Nat)
  namedImports : List Nat
  memberExprRefs : List MemberExprRef
  errors : List Diagnostic
  warnings : List Diagnostic
  hasEval : Bool
  cjsModuleIdent : Option Span
  cjsExportsIdent : Option Span
  selfReferencedClassDeclSymbolIds : List Nat
deriving DecidableEq, Repr

/-- Modelled from the spec: the fresh scanner state (`AstScanner::new`, not
under `src/`). "Global mutable diagnostic/result accumulation: … a single
mutable result structure owned by one scan invocation"; every accumulator
starts empty and every flag unset. -/
def initialScanState : ScanState :=
  { curStmtInfo := StmtInfo.default
    importRecords := []
    importsMap := []
    namedImports := []
    memberExprRefs := []
    errors := []
    warnings := []
    hasEval := false
    cjsModuleIdent := none
    cjsExportsIdent := none
    selfReferencedClassDeclSymbolIds := [] }

/-!
Scanner helper methods. Helpers that live outside `src/` (resolution,
record/bookkeeping appends) are modelled from the spec, as marked.
-/

/-- Modelled from the spec: `resolve_identifier_to_root_symbol` (§4.1, not
under `src/`): "returns the binding the identifier refers to, filtered to
root (module-level) scope; returns none if the identifier is unresolved
(global) or resolves to a non-root binding". -/
def resolveIdentifierToRootSymbol (ctx : ScanCtx) (binding : Option BindingInfo) : Option Nat :=
  match binding with
  | some b => if ctx.isRootSymbol b.symbol then some b.symbol else none
  | none => none

/-- Modelled from the spec: `is_global_identifier_reference` (§4.1, not under
`src/`): "true iff the identifier has no declared binding anywhere in the
current file". -/
def isGlobalIdentifierReference (binding : Option BindingInfo) : Bool := binding.isNone

/-- Modelled from the spec: `CallExpression::is_global_require_call` (util
outside `src/`): the call is "a global (unshadowed) `require​(...)`" — its
callee is the identifier `require` with no local binding. -/
def isGlobalRequireCallCallee : Expr → Bool
  | .identRef name _ binding _ => name == "require" && isGlobalIdentifierReference binding
  | _ => false

/-- Modelled from the spec: `add_declared_id` — "record it as declared by the
current statement". -/
def addDeclaredId (sym : Nat) (st : ScanState) : ScanState :=
  { st with curStmtInfo :=
      { st.curStmtInfo with declaredSymbols := st.curStmtInfo.declaredSymbols ++ [sym] } }

/-- Modelled from the spec: `add_referenced_symbol` — "record as referenced by
the current statement". -/
def addReferencedSymbol (sym : Nat) (st : ScanState) : ScanState :=
  { st with curStmtInfo :=
      { st.curStmtInfo with referencedSymbols := st.curStmtInfo.referencedSymbols ++ [sym] } }

/-- Modelled from the spec: `add_import_record` — an `ImportRecord` is
"created exactly once at the call/import site during the scan; never merged
or deduplicated at this layer"; appends the record and returns its id. -/
def addImportRecord (request : String) (kind : ImportKind) (span : Span)
    (meta : ImportRecordMeta) (st : ScanState) : Nat × ScanState :=
  (st.importRecords.length,
   { st with importRecords := st.importRecords ++ [⟨request, kind, span, meta⟩] })

/-- `self.result.imports.insert(span, id)`: map insert, overwriting the key. -/
def insertImportSpan (span : Span) (id : Nat) (st : ScanState) : ScanState :=
  { st with importsMap := (span, id) :: st.importsMap.filter (fun p => !(p.1 == span)) }

/-- Modelled from the spec: `add_member_expr_reference` — "emit a
member-access-path fact keyed by the import symbol". -/
def addMemberExprReference (sym : Nat) (props : List String) (span : Span)
    (st : ScanState) : ScanState :=
  { st with memberExprRefs := st.memberExprRefs ++ [⟨sym, props, span⟩] }

/-- Modelled from the spec: `try_diagnostic_forbid_const_assign` (not under
`src/`): "validate it is not an illegal assignment to a constant binding
(diagnostic on violation)"; the error is recorded, not thrown. -/
def tryDiagnosticForbidConstAssign (binding : Option BindingInfo) (span : Span)
    (st : ScanState) : ScanState :=
  match binding with
  | some b =>
      if b.isConst then { st with errors := st.errors ++ [.forbidConstAssign span] } else st
  | none => st

/-- Modelled from the spec: `scan_module_decl` (not under `src/`): the
import/export scanning routine "populates named_imports/export tables
consumed by the linker", and an `ImportRecord` exists "one per static
import". Only the import side is needed by the claims. -/
def scanModuleDecl (request : String) (requestSpan : Span) (importedSymbols : List Nat)
    (st : ScanState) : ScanState :=
  let st := { st with namedImports := st.namedImports ++ importedSymbols }
  (addImportRecord request .staticImport requestSpan .empty st).2

/-- `Option::get_or_insert`: keep an existing value, set the given one only
when absent. -/
def optionGetOrInsert (o : Option Span) (v : Span) : Option Span :=
  match o with
  | some x => some x
  | none => some v

/-- `result.self_referenced_class_decl_symbol_ids.insert`: set insert. -/
def insertSelfReferencedClass (sym : Nat) (st : ScanState) : ScanState :=
  if st.selfReferencedClassDeclSymbolIds.contains sym then st
  else { st with selfReferencedClassDeclSymbolIds :=
          st.selfReferencedClassDeclSymbolIds ++ [sym] }

/-- The eval branch of `visit_call_expression`: set the module-wide flag and
append one warning at the callee identifier's span. -/
def pushEvalWarning (span : Span) (st : ScanState) : ScanState :=
  { st with hasEval := true, warnings := st.warnings ++ [.evalWarning span] }

/-- `BuildDiagnostic::unsupported_feature` push for top-level await: the error
is appended to `result.errors`, naming the offending format. -/
def pushUnsupportedTopLevelAwait (format : OutputFormat) (span : Span)
    (st : ScanState) : ScanState :=
  { st with errors := st.errors ++ [.unsupportedTopLevelAwait format span] }

/-- The member-chain collection loop of `visit_member_expression`: starting
from a static member expression's `(object, property)`, push properties
outermost-first and stop at the chain's root — resolved to a root symbol if
it is an identifier, bailing with `none` on any other object kind. -/
def memberExprChain (ctx : ScanCtx) (object : Expr) (property : String) :
    List String × Option Nat :=
  match object with
  | .staticMember obj prop _ =>
      let r := memberExprChain ctx obj prop
      (property :: r.1, r.2)
  | .identRef _ _ binding _ => ([property], resolveIdentifierToRootSymbol ctx binding)
  | _ => ([property], none)

/-- The require-usage ancestor walk of `visit_call_expression` (the
`for ancestor in self.visit_path.iter().rev()` loop), innermost ancestor
first; returns whether `IS_REQUIRE_UNUSED` is inserted. Parenthesization is
skipped; an expression-statement ancestor inserts the flag and stops; a
sequence ancestor recomputes the usage flag from whether its last operand's
span contains the call's span (both spans non-empty) and continues; any
other ancestor stops if the flag currently says used, else continues. -/
def requireUnusedWalk (callSpan : Span) : List AstKind → Bool → Bool
  | [], _ => false
  | k :: rest, isRequireUsed =>
    match k with
    | .parenthesizedExpression _ => requireUnusedWalk callSpan rest isRequireUsed
    | .expressionStatement _ => true
    | .sequenceExpression first restE _ =>
        let last := (first :: restE).getLast (List.cons_ne_nil _ _)
        requireUnusedWalk callSpan rest
          (if !(Span.is_empty (Expr.span last)) && !(Span.is_empty callSpan) then
            Span.contains_inclusive (Expr.span last) callSpan
          else true)
    | .otherKind _ =>
        if isRequireUsed then false else requireUnusedWalk callSpan rest isRequireUsed

/-- `visit_binding_identifier`: declare the bound symbol when it is
root-scope. -/
def visitBindingIdentifier (ctx : ScanCtx) (id : BindingIdent) (st : ScanState) : ScanState :=
  if ctx.isRootSymbol id.symbolId then addDeclaredId id.symbolId st else st

/-- The assignment-target match of `visit_assignment_expression` (lines
181–212): const-assignment validation for plain identifier targets, CJS
`module.exports` / `exports.ANY` / `module.exports.ANY` marker detection for
static-member targets, first occurrence only, only for unshadowed globals. -/
def scanAssignmentTarget (left : Expr) (st : ScanState) : ScanState :=
  match left with
  | .identRef _ span binding _ => tryDiagnosticForbidConstAssign binding span st
  | .staticMember object property _ =>
    match object with
    | .identRef name idSpan binding _ =>
        let st :=
          if name == "module" && isGlobalIdentifierReference binding
              && property == "exports" then
            { st with cjsModuleIdent :=
                optionGetOrInsert st.cjsModuleIdent (Span.mk idSpan.start (idSpan.start + 6)) }
          else st
        if name == "exports" && isGlobalIdentifierReference binding then
          { st with cjsExportsIdent :=
              optionGetOrInsert st.cjsExportsIdent (Span.mk idSpan.start (idSpan.start + 7)) }
        else st
    | .staticMember innerObject innerProperty _ =>
      match innerObject with
      | .identRef name idSpan binding _ =>
          if name == "module" && isGlobalIdentifierReference binding
              && innerProperty == "exports" then
            { st with cjsModuleIdent :=
                optionGetOrInsert st.cjsModuleIdent (Span.mk idSpan.start (idSpan.start + 6)) }
          else st
      | _ => st
    | _ => st
  | _ => st

/-- The body of `visit_identifier_reference`: record the root-resolved symbol
as referenced; when inside a class declaration's traversal and the reference
id is among the class's precomputed self-references, mark the class as
self-referencing. -/
def scanIdentifierReference (ctx : ScanCtx) (classCtx : Option (Nat × List Nat))
    (binding : Option BindingInfo) (referenceId : Nat) (st : ScanState) : ScanState :=
  let st :=
    match resolveIdentifierToRootSymbol ctx binding with
    | some rootSymbolId => addReferencedSymbol rootSymbolId st
    | none => st
  match classCtx with
  | some (symbolId, ids) =>
      if ids.contains referenceId then insertSelfReferencedClass symbolId st else st
  | none => st

/-- The eval branch of `visit_call_expression` (lines 217–230): an `eval`
callee that does not resolve to a root symbol sets `has_eval` and appends
one warning at the callee's span. -/
def scanEvalCheck (ctx : ScanCtx) (callee : Expr) (st : ScanState) : ScanState :=
  match callee with
  | .identRef name idSpan binding _ =>
      if name == "eval" && (resolveIdentifierToRootSymbol ctx binding).isNone then
        pushEvalWarning idSpan st
      else st
  | _ => st

/-- The require branch of `visit_call_expression` (lines 231–277): a global
`require` call with a string-literal first argument creates one import
record, with `IS_UNSPANNED_IMPORT` for an empty request span and otherwise
`IS_REQUIRE_UNUSED` per the ancestor walk, and registers the call span in
the imports map. -/
def scanRequireCall (path : List AstKind) (callee : Expr) (arguments : List Expr)
    (span : Span) (st : ScanState) : ScanState :=
  if isGlobalRequireCallCallee callee then
    match arguments.head? with
    | some (.stringLit requestValue requestSpan) =>
        let meta :=
          if Span.is_empty requestSpan then
            { ImportRecordMeta.empty with isUnspannedImport := true }
          else
            { ImportRecordMeta.empty with
                isRequireUnused := requireUnusedWalk span path true }
        let r := addImportRecord requestValue .require requestSpan meta st
        insertImportSpan span r.1 r.2
    | _ => st
  else st

/-- The record-creation step of `visit_import_expression`: a string-literal
source creates one dynamic-import record (`IS_UNSPANNED_IMPORT` iff the
literal's span is empty) and registers the expression span. -/
def scanImportExpression (source : Expr) (span : Span) (st : ScanState) : ScanState :=
  match source with
  | .stringLit requestValue requestSpan =>
      let meta :=
        if Span.is_empty requestSpan then
          { ImportRecordMeta.empty with isUnspannedImport := true }
        else ImportRecordMeta.empty
      let r := addImportRecord requestValue .dynamicImport requestSpan meta st
      insertImportSpan span r.1 r.2
  | _ => st

/-- The top-level-await check of `visit_await_expression` (lines 124–136). -/
def awaitExprCheck (opts : Option BundlerOptions) (topLevel : Bool) (span : Span)
    (st : ScanState) : ScanState :=
  match opts with
  | some o =>
      if !(OutputFormat.keepEsmImportExport o.format) && topLevel then
        pushUnsupportedTopLevelAwait o.format span st
      else st
  | none => st

/-- The top-level-await check of `visit_for_of_statement` (lines 105–122). -/
def forOfAwaitCheck (opts : Option BundlerOptions) (isAwait topLevel : Bool) (span : Span)
    (st : ScanState) : ScanState :=
  if isAwait && topLevel then
    match opts with
    | some o =>
        if !(OutputFormat.keepEsmImportExport o.format) then
          pushUnsupportedTopLevelAwait o.format span st
        else st
    | none => st
  else st

/-!
The single depth-first traversal (`impl Visit for AstScanner`), as explicit
state passing. The visit path and the current-class context are passed as
parameters: pushing a tag for a node's children and popping it on leave is
exactly extending the list for the recursive calls, and the source's
save/restore of `cur_class_decl_and_symbol_referenced_ids` is exactly
parameter passing. `topLevel` is modelled from the spec (`is_top_level`, not
under `src/`): true at module top level, false inside any function body or
class element. The head of `path` is the innermost ancestor (the source
iterates the pushed path with `.iter().rev()`).
-/

mutual

/-- Expression dispatch of the traversal, covering the scanner's overridden
expression visitors (`visit_identifier_reference`, `visit_member_expression`,
`visit_call_expression`, `visit_import_expression`, `visit_await_expression`,
`visit_assignment_expression`) and the default walks of the remaining kinds. -/
def visitExpr (ctx : ScanCtx) (path : List AstKind) (topLevel : Bool)
    (classCtx : Option (Nat × List Nat)) (e : Expr) (st : ScanState) : ScanState :=
  match e with
  | .identRef _ _ binding referenceId =>
      scanIdentifierReference ctx classCtx binding referenceId st
  | .stringLit _ _ => st
  | .numberLit _ => st
  | .staticMember object property span =>
      let chain := memberExprChain ctx object property
      match chain.2 with
      | some symRef =>
          if st.namedImports.contains symRef && !(Span.isUnspanned span) then
            addMemberExprReference symRef chain.1.reverse span st
          else
            visitExpr ctx (.otherKind "StaticMemberExpression" :: path) topLevel classCtx
              object st
      | none =>
          visitExpr ctx (.otherKind "StaticMemberExpression" :: path) topLevel classCtx
            object st
  | .computedMember object index _ =>
      let st :=
        visitExpr ctx (.otherKind "ComputedMemberExpression" :: path) topLevel classCtx
          object st
      visitExpr ctx (.otherKind "ComputedMemberExpression" :: path) topLevel classCtx
        index st
  | .callExpr callee arguments span =>
      let st := scanEvalCheck ctx callee st
      let st := scanRequireCall path callee arguments span st
      let st :=
        visitExpr ctx (.otherKind "CallExpression" :: path) topLevel classCtx callee st
      visitExprList ctx (.otherKind "CallExpression" :: path) topLevel classCtx arguments st
  | .importExpr source span =>
      let st := scanImportExpression source span st
      visitExpr ctx (.otherKind "ImportExpression" :: path) topLevel classCtx source st
  | .seqExpr first rest span =>
      let st :=
        visitExpr ctx (.sequenceExpression first rest span :: path) topLevel classCtx
          first st
      visitExprList ctx (.sequenceExpression first rest span :: path) topLevel classCtx
        rest st
  | .parenExpr inner span =>
      visitExpr ctx (.parenthesizedExpression span :: path) topLevel classCtx inner st
  | .awaitExpr argument span =>
      let st := awaitExprCheck ctx.options topLevel span st
      visitExpr ctx (.otherKind "AwaitExpression" :: path) topLevel classCtx argument st
  | .assignExpr left right _ =>
      let st := scanAssignmentTarget left st
      let st :=
        visitExpr ctx (.otherKind "AssignmentExpression" :: path) topLevel classCtx left st
      visitExpr ctx (.otherKind "AssignmentExpression" :: path) topLevel classCtx right st
  | .funcExpr body _ =>
      visitStmtList ctx
        (.otherKind "FunctionBody" :: .otherKind "Function" :: path) false classCtx body st

/-- Walk a list of expressions in order (call arguments, sequence tails). -/
def visitExprList (ctx : ScanCtx) (path : List AstKind) (topLevel : Bool)
    (classCtx : Option (Nat × List Nat)) (es : List Expr) (st : ScanState) : ScanState :=
  match es with
  | [] => st
  | e :: rest =>
      let st := visitExpr ctx path topLevel classCtx e st
      visitExprList ctx path topLevel classCtx rest st

/-- `visit_statement` plus the statement-kind dispatch of `walk_statement`:
the module-declaration hand-off first, then for class declarations the
`visit_declaration` override (`scan_class_declaration` on named classes,
followed by `walk_declaration`'s own walk of the same class node — the
source walks a named class's body twice). -/
def visitStmt (ctx : ScanCtx) (path : List AstKind) (topLevel : Bool)
    (classCtx : Option (Nat × List Nat)) (s : Stmt) (st : ScanState) : ScanState :=
  let st :=
    match s with
    | .importDecl request requestSpan importedSymbols _ =>
        scanModuleDecl request requestSpan importedSymbols st
    | _ => st
  match s with
  | .exprStmt e span =>
      visitExpr ctx (.expressionStatement span :: path) topLevel classCtx e st
  | .varDecl declarations _ =>
      visitDeclaratorList ctx (.otherKind "VariableDeclaration" :: path) topLevel classCtx
        declarations st
  | .classDecl id body _ =>
      let st :=
        match id with
        | some bid =>
            let innerCtx := some (bid.symbolId, ctx.resolvedReferences bid.symbolId)
            let st := visitBindingIdentifier ctx bid st
            visitClassElemList ctx
              (.otherKind "ClassBody" :: .otherKind "Class" :: path) topLevel innerCtx
              body st
        | none => st
      let st :=
        match id with
        | some bid => visitBindingIdentifier ctx bid st
        | none => st
      visitClassElemList ctx
        (.otherKind "ClassBody" :: .otherKind "Class" :: path) topLevel classCtx body st
  | .forOfStmt isAwait right body span =>
      let st := forOfAwaitCheck ctx.options isAwait topLevel span st
      let st :=
        visitExpr ctx (.otherKind "ForOfStatement" :: path) topLevel classCtx right st
      visitStmt ctx (.otherKind "ForOfStatement" :: path) topLevel classCtx body st
  | .importDecl _ _ _ _ => st

/-- Walk a list of statements in order (function bodies). -/
def visitStmtList (ctx : ScanCtx) (path : List AstKind) (topLevel : Bool)
    (classCtx : Option (Nat × List Nat)) (ss : List Stmt) (st : ScanState) : ScanState :=
  match ss with
  | [] => st
  | s :: rest =>
      let st := visitStmt ctx path topLevel classCtx s st
      visitStmtList ctx path topLevel classCtx rest st

/-- Walk a variable declaration's declarators: the binding identifier, then
the initializer expression. -/
def visitDeclaratorList (ctx : ScanCtx) (path : List AstKind) (topLevel : Bool)
    (classCtx : Option (Nat × List Nat)) (ds : List Declarator) (st : ScanState) : ScanState :=
  match ds with
  | [] => st
  | .mk id init :: rest =>
      let st := visitBindingIdentifier ctx id st
      let st :=
        match init with
        | some e =>
            visitExpr ctx (.otherKind "VariableDeclarator" :: path) topLevel classCtx e st
        | none => st
      visitDeclaratorList ctx path topLevel classCtx rest st

/-- Walk a class body's elements: property-definition values and method
bodies; class elements are not at module top level. -/
def visitClassElemList (ctx : ScanCtx) (path : List AstKind) (topLevel : Bool)
    (classCtx : Option (Nat × List Nat)) (es : List ClassElem) (st : ScanState) : ScanState :=
  match es with
  | [] => st
  | .propertyDef value _ :: rest =>
      let st :=
        match value with
        | some e =>
            visitExpr ctx (.otherKind "PropertyDefinition" :: path) false classCtx e st
        | none => st
      visitClassElemList ctx path topLevel classCtx rest st
  | .methodDef body _ :: rest =>
      let st :=
        visitStmtList ctx
          (.otherKind "FunctionBody" :: .otherKind "Function"
            :: .otherKind "MethodDefinition" :: path) false classCtx body st
      visitClassElemList ctx path topLevel classCtx rest st

end

/-- The scanner's full output: the committed per-statement infos, the final
accumulated state, and the hashbang span. -/
structure ScanResult where
  stmtInfos : List StmtInfo
  state : ScanState
  hashbangRange : Option Span
deriving Repr

/-- The statement loop of `visit_program`: for each top-level statement in
order, set the current index, compute the side-effect flag with a fresh
detector (the detector itself is an external collaborator, passed as the
oracle `detect`), traverse the statement, then commit the accumulated
`curStmtInfo` and reset it to the default (`std::mem::take`).
`loopEnterStmt` is the per-statement entry step: set the current index and
the side-effect flag on the accumulator. -/
def loopEnterStmt (detect : Stmt → Bool) (idx : Nat) (s : Stmt) (st : ScanState) :
    ScanState :=
  { st with curStmtInfo :=
      { st.curStmtInfo with stmtIdx := some idx, sideEffect := detect s } }

def visitProgramLoop (ctx : ScanCtx) (detect : Stmt → Bool) (stmts : List Stmt)
    (idx : Nat) (st : ScanState) (infos : List StmtInfo) : ScanState × List StmtInfo :=
  match stmts with
  | [] => (st, infos)
  | s :: rest =>
      let st := loopEnterStmt detect idx s st
      let st := visitStmt ctx [] true none s st
      let committed := st.curStmtInfo
      let st := { st with curStmtInfo := StmtInfo.default }
      visitProgramLoop ctx detect rest (idx + 1) st (infos ++ [committed])

/-- `visit_program`: run the statement loop from the fresh scanner state, then
record the optional hashbang span. The scan is a total function — every
diagnostic is accumulated in the result, never raised as control flow. -/
def visitProgram (ctx : ScanCtx) (detect : Stmt → Bool) (program : Program) : ScanResult :=
  let r := visitProgramLoop ctx detect program.body 0 initialScanState []
  { stmtInfos := r.2, state := r.1, hashbangRange := program.hashbang }

/-!
The Semantic Preprocessor (`PreProcessEcmaAst::build`,
`crates/rolldown/src/utils/pre_process_ecma_ast.rs`). The external stages
(oxc `SemanticBuilder`, `Transformer`, `ReplaceGlobalDefines`,
`InjectGlobalVariables`, `Compressor`, span normalization) are opaque
collaborators; their outputs are inputs here. Symbol tables and scope trees
are opaque handles (`Nat`), since `build` only threads them.
-/

/-- oxc diagnostic severity. -/
inductive Severity : Type where
  | error
  | warning
  | advice
deriving DecidableEq, Repr

/-- A diagnostic returned by the external oxc transformer. -/
structure OxcDiagnostic where
  severity : Severity
deriving DecidableEq, Repr

/-- `OxcParseType`: detected syntax of the module. -/
inductive OxcParseType : Type where
  | js
  | jsx
  | ts
  | tsx
deriving DecidableEq, Repr

/-- Result of the external TS/JSX `Transformer` run
(`build_with_symbols_and_scopes`): diagnostics plus replacement
symbol/scope data. -/
structure TransformerRet where
  errors : List OxcDiagnostic
  symbols : Nat
  scopes : Nat
deriving DecidableEq, Repr

/-- The outputs of every external stage `build` consumes, gathered as one
oracle input: the initial semantic build (whose error list the source
currently ignores — the commented-out TODO), the transformer, the
global-define replacement, the global-variable injection, the semantic
rebuild before dead-code elimination, and the final semantic rebuild. -/
structure PreProcessOracle where
  semanticErrors : List OxcDiagnostic
  initialSymbols : Nat
  initialScopes : Nat
  transformerRet : TransformerRet
  replaceRet : Nat × Nat
  injectRet : Nat × Nat
  rebuildRet : Nat × Nat
  finalRet : Nat × Nat
deriving DecidableEq, Repr

/-- `PreProcessEcmaAst::build`: the only early return is the abort when the
transform stage runs (`parse_type` is not plain JS) and reports at least one
error-severity diagnostic; warnings are filtered out and dropped. Afterwards
define replacement, injection and (with a semantic rebuild if the AST
changed) dead-code elimination run without failing, and the final semantic
data is rebuilt unconditionally from the mutated tree. Returns the final
symbol/scope handles and the `ast_changed` flag on success, or the
aggregated error-severity diagnostics of the transform on abort. -/
def preProcessEcmaAstBuild (oracle : PreProcessOracle) (parseType : OxcParseType)
    (replaceGlobalDefineConfigured : Bool) (injectIsEmpty : Bool)
    (treeshakeEnabled : Bool) : Except (List OxcDiagnostic) (Nat × Nat × Bool) :=
  let symbols := oracle.initialSymbols
  let scopes := oracle.initialScopes
  let astChanged := false
  let transformStep : Except (List OxcDiagnostic) (Nat × Nat × Bool) :=
    if parseType ≠ OxcParseType.js then
      let errors := oracle.transformerRet.errors.filter
        (fun item => item.severity == Severity.error)
      if errors.isEmpty then
        Except.ok (oracle.transformerRet.symbols, oracle.transformerRet.scopes, true)
      else Except.error errors
    else Except.ok (symbols, scopes, astChanged)
  match transformStep with
  | Except.error e => Except.error e
  | Except.ok (symbols, scopes, astChanged) =>
      let (symbols, scopes, astChanged) :=
        if replaceGlobalDefineConfigured then
          (oracle.replaceRet.1, oracle.replaceRet.2, true)
        else (symbols, scopes, astChanged)
      let (symbols, scopes, astChanged) :=
        if !injectIsEmpty then (oracle.injectRet.1, oracle.injectRet.2, true)
        else (symbols, scopes, astChanged)
      let (_, _) :=
        if treeshakeEnabled then
          if astChanged then oracle.rebuildRet else (symbols, scopes)
        else (symbols, scopes)
      Except.ok (oracle.finalRet.1, oracle.finalRet.2, astChanged)

/-!
Concrete fixtures used by the claims: small programs with the semantic data
oxc would attach (symbol 1 is the only root symbol; reference-id list 10 is
attached to symbol 1 for the class self-reference machinery).
-/

/-- Scanner context with no bundler options attached. -/
def ctxNoOptions : ScanCtx :=
  ⟨none, fun n => n == 1, fun n => if n == 1 then [10] else []⟩

/-- Fixture for `require("x");` — a standalone expression statement. -/
def requireStatementProgram : Program :=
  ⟨[.exprStmt (.callExpr (.identRef "require" ⟨0, 7⟩ none 0)
      [.stringLit "x" ⟨8, 11⟩] ⟨0, 12⟩) ⟨0, 13⟩], none⟩

/-- Fixture for `(require("x"));` — the same call behind parentheses. -/
def requireParenProgram : Program :=
  ⟨[.exprStmt (.parenExpr (.callExpr (.identRef "require" ⟨1, 8⟩ none 0)
      [.stringLit "x" ⟨9, 12⟩] ⟨1, 13⟩) ⟨0, 14⟩) ⟨0, 15⟩], none⟩

/-- Fixture for `const y = require("x")` — the call result is bound. -/
def requireAssignedProgram : Program :=
  ⟨[.varDecl [⟨⟨"y", ⟨6, 7⟩, 1⟩, some (.callExpr (.identRef "require" ⟨10, 17⟩ none 0)
      [.stringLit "x" ⟨18, 21⟩] ⟨10, 22⟩)⟩] ⟨0, 23⟩], none⟩

/-- Fixture for a `require` call whose request literal has an empty
(synthesized) span. -/
def requireUnspannedProgram : Program :=
  ⟨[.exprStmt (.callExpr (.identRef "require" ⟨0, 7⟩ none 0)
      [.stringLit "x" ⟨8, 8⟩] ⟨0, 12⟩) ⟨0, 13⟩], none⟩

/-- Fixture for `import("m")` — a dynamic import statement. -/
def dynamicImportProgram : Program :=
  ⟨[.exprStmt (.importExpr (.stringLit "m" ⟨7, 12⟩) ⟨0, 13⟩) ⟨0, 14⟩], none⟩

/-- Fixture for `class A { static p = require("foo") }` — a require site
inside the body of a named class declaration (class symbol 1). -/
def requireInClassProgram : Program :=
  ⟨[.classDecl (some ⟨"A", ⟨6, 7⟩, 1⟩)
      [.propertyDef (some (.callExpr (.identRef "require" ⟨21, 28⟩ none 0)
        [.stringLit "foo" ⟨29, 34⟩] ⟨21, 35⟩)) ⟨10, 36⟩] ⟨0, 38⟩], none⟩

/-- Fixture for `(require("x"), 1);` — the call is the first operand of a
sequence, not the last. -/
def seqFirstRequireProgram : Program :=
  ⟨[.exprStmt (.parenExpr (.seqExpr
      (.callExpr (.identRef "require" ⟨1, 8⟩ none 0) [.stringLit "x" ⟨9, 12⟩] ⟨1, 13⟩)
      [.numberLit ⟨15, 16⟩] ⟨1, 16⟩) ⟨0, 17⟩) ⟨0, 18⟩], none⟩

/-- Fixture for `(1, require("x"));` — the call is the last operand of a
sequence. -/
def seqLastRequireProgram : Program :=
  ⟨[.exprStmt (.parenExpr (.seqExpr (.numberLit ⟨1, 2⟩)
      [.callExpr (.identRef "require" ⟨4, 11⟩ none 0) [.stringLit "x" ⟨12, 15⟩] ⟨4, 16⟩]
      ⟨1, 16⟩) ⟨0, 17⟩) ⟨0, 18⟩], none⟩

/-- Fixture for `eval(1)` where `eval` is never declared in the file: the
callee reference is unresolved. -/
def evalGlobalProgram : Program :=
  ⟨[.exprStmt (.callExpr (.identRef "eval" ⟨0, 4⟩ none 0)
      [.numberLit ⟨5, 6⟩] ⟨0, 7⟩) ⟨0, 8⟩], none⟩

/-- Fixture for `const eval = function () {}; eval(1)` at top level: the
callee resolves to the root-scope binding (symbol 1). -/
def evalRootProgram : Program :=
  ⟨[.varDecl [⟨⟨"eval", ⟨6, 10⟩, 1⟩, some (.funcExpr [] ⟨13, 27⟩)⟩] ⟨0, 28⟩,
    .exprStmt (.callExpr (.identRef "eval" ⟨29, 33⟩ (some ⟨1, false⟩) 0)
      [.numberLit ⟨34, 35⟩] ⟨29, 36⟩) ⟨29, 37⟩], none⟩

/-- Fixture for `(function () { const eval = function () {}; eval(1) });`:
`eval` is bound in a nested (non-root) scope (symbol 5, which the context
does not classify as root) and called there. -/
def evalNestedProgram : Program :=
  ⟨[.exprStmt (.funcExpr
      [.varDecl [⟨⟨"eval", ⟨20, 24⟩, 5⟩, some (.funcExpr [] ⟨27, 41⟩)⟩] ⟨14, 42⟩,
       .exprStmt (.callExpr (.identRef "eval" ⟨43, 47⟩ (some ⟨5, false⟩) 0)
         [.numberLit ⟨48, 49⟩] ⟨43, 50⟩) ⟨43, 51⟩]
      ⟨1, 53⟩) ⟨0, 55⟩], none⟩

/-- Fixture for `module.exports = 1` with `module` an unshadowed global
(identifier span 0..6). -/
def cjsModuleProgram : Program :=
  ⟨[.exprStmt (.assignExpr
      (.staticMember (.identRef "module" ⟨0, 6⟩ none 0) "exports" ⟨0, 14⟩)
      (.numberLit ⟨17, 18⟩) ⟨0, 18⟩) ⟨0, 19⟩], none⟩

/-- Fixture for `const module = 1; module.exports = 1` — the global is
shadowed by a root-scope binding (symbol 1). -/
def cjsShadowProgram : Program :=
  ⟨[.varDecl [⟨⟨"module", ⟨6, 12⟩, 1⟩, some (.numberLit ⟨15, 16⟩)⟩] ⟨0, 17⟩,
    .exprStmt (.assignExpr
      (.staticMember (.identRef "module" ⟨18, 24⟩ (some ⟨1, false⟩) 0) "exports" ⟨18, 32⟩)
      (.numberLit ⟨35, 36⟩) ⟨18, 36⟩) ⟨18, 37⟩], none⟩

/-- Fixture for `import { ns } from "m"; ns.a.b` — `ns` (symbol 1) is a
named import, and the full access expression `ns.a.b` has an EMPTY span
(synthesized) while the inner access `ns.a` has span 25..29. -/
def memberUnspannedProgram : Program :=
  ⟨[.importDecl "m" ⟨20, 23⟩ [1] ⟨0, 24⟩,
    .exprStmt (.staticMember
      (.staticMember (.identRef "ns" ⟨25, 27⟩ (some ⟨1, false⟩) 0) "a" ⟨25, 29⟩)
      "b" ⟨30, 30⟩) ⟨25, 32⟩], none⟩

/-- Whether a preprocessor result is the aborting error. -/
def exceptIsError : Except (List OxcDiagnostic) (Nat × Nat × Bool) → Bool
  | .error _ => true
  | .ok _ => false

/-!
Frame invariants of the traversal: facts preserved by every visitor step,
proved by one mutual induction mirroring the traversal. They feed the
universally-quantified claims: the current statement index is never touched
by statement traversal (StmtInfo bookkeeping), CJS markers are never
overwritten once set (first-occurrence-only), and no top-level-await error
is ever appended when the options are absent or the format preserves ESM
syntax.
-/

/-- Whether the configuration can never produce a top-level-await error:
either no options are attached, or the format keeps ESM syntax. -/
def tlaSilenced : Option BundlerOptions → Bool
  | none => true
  | some o => OutputFormat.keepEsmImportExport o.format

/-- The frame invariant every visitor step preserves. -/
def FrameOk (opts : Option BundlerOptions) (st st' : ScanState) : Prop :=
  st'.curStmtInfo.stmtIdx = st.curStmtInfo.stmtIdx ∧
  (∀ v, st.cjsModuleIdent = some v → st'.cjsModuleIdent = some v) ∧
  (∀ v, st.cjsExportsIdent = some v → st'.cjsExportsIdent = some v) ∧
  (tlaSilenced opts = true →
    ∀ d, d ∈ st'.errors → d.isTopLevelAwaitError = true → d ∈ st.errors)

theorem FrameOk.rfl' (opts : Option BundlerOptions) (st : ScanState) : FrameOk opts st st :=
  ⟨rfl, fun _ h => h, fun _ h => h, fun _ _ hd _ => hd⟩

theorem FrameOk.trans {opts : Option BundlerOptions} {s1 s2 s3 : ScanState}
    (h12 : FrameOk opts s1 s2) (h23 : FrameOk opts s2 s3) : FrameOk opts s1 s3 :=
  ⟨h23.1.trans h12.1,
   fun v hv => h23.2.1 v (h12.2.1 v hv),
   fun v hv => h23.2.2.1 v (h12.2.2.1 v hv),
   fun hs d hd ht => h12.2.2.2 hs d (h23.2.2.2 hs d hd ht) ht⟩

/-- Build the frame invariant from per-field facts; the error clause is
required unconditionally, which every primitive except the guarded
top-level-await push satisfies. -/
theorem FrameOk.intro {opts : Option BundlerOptions} {st st' : ScanState}
    (h1 : st'.curStmtInfo.stmtIdx = st.curStmtInfo.stmtIdx)
    (h2 : ∀ v, st.cjsModuleIdent = some v → st'.cjsModuleIdent = some v)
    (h3 : ∀ v, st.cjsExportsIdent = some v → st'.cjsExportsIdent = some v)
    (h4 : ∀ d, d ∈ st'.errors → d.isTopLevelAwaitError = true → d ∈ st.errors) :
    FrameOk opts st st' :=
  ⟨h1, h2, h3, fun _ => h4⟩

theorem frameOk_addDeclaredId (opts : Option BundlerOptions) (sym : Nat) (st : ScanState) :
    FrameOk opts st (addDeclaredId sym st) :=
  FrameOk.intro rfl (fun _ h => h) (fun _ h => h) (fun _ hd _ => hd)

theorem frameOk_addReferencedSymbol (opts : Option BundlerOptions) (sym : Nat)
    (st : ScanState) : FrameOk opts st (addReferencedSymbol sym st) :=
  FrameOk.intro rfl (fun _ h => h) (fun _ h => h) (fun _ hd _ => hd)

theorem frameOk_addImportRecord (opts : Option BundlerOptions) (request : String)
    (kind : ImportKind) (span : Span) (meta : ImportRecordMeta) (st : ScanState) :
    FrameOk opts st (addImportRecord request kind span meta st).2 :=
  FrameOk.intro rfl (fun _ h => h) (fun _ h => h) (fun _ hd _ => hd)

theorem frameOk_insertImportSpan (opts : Option BundlerOptions) (span : Span) (id : Nat)
    (st : ScanState) : FrameOk opts st (insertImportSpan span id st) :=
  FrameOk.intro rfl (fun _ h => h) (fun _ h => h) (fun _ hd _ => hd)

theorem frameOk_addMemberExprReference (opts : Option BundlerOptions) (sym : Nat)
    (props : List String) (span : Span) (st : ScanState) :
    FrameOk opts st (addMemberExprReference sym props span st) :=
  FrameOk.intro rfl (fun _ h => h) (fun _ h => h) (fun _ hd _ => hd)

theorem frameOk_scanModuleDecl (opts : Option BundlerOptions) (request : String)
    (requestSpan : Span) (importedSymbols : List Nat) (st : ScanState) :
    FrameOk opts st (scanModuleDecl request requestSpan importedSymbols st) :=
  FrameOk.intro rfl (fun _ h => h) (fun _ h => h) (fun _ hd _ => hd)

theorem frameOk_insertSelfReferencedClass (opts : Option BundlerOptions) (sym : Nat)
    (st : ScanState) : FrameOk opts st (insertSelfReferencedClass sym st) := by
  unfold insertSelfReferencedClass
  split
  · exact FrameOk.rfl' opts st
  · exact FrameOk.intro rfl (fun _ h => h) (fun _ h => h) (fun _ hd _ => hd)

theorem frameOk_pushEvalWarning (opts : Option BundlerOptions) (span : Span)
    (st : ScanState) : FrameOk opts st (pushEvalWarning span st) :=
  FrameOk.intro rfl (fun _ h => h) (fun _ h => h) (fun _ hd _ => hd)

theorem frameOk_tryDiagnosticForbidConstAssign (opts : Option BundlerOptions)
    (binding : Option BindingInfo) (span : Span) (st : ScanState) :
    FrameOk opts st (tryDiagnosticForbidConstAssign binding span st) := by
  unfold tryDiagnosticForbidConstAssign
  split
  · split
    · refine FrameOk.intro rfl (fun _ h => h) (fun _ h => h) ?_
      intro d hd ht
      rcases List.mem_append.mp hd with h | h
      · exact h
      · simp only [List.mem_singleton] at h
        subst h
        simp [Diagnostic.isTopLevelAwaitError] at ht
    · exact FrameOk.rfl' opts st
  · exact FrameOk.rfl' opts st

theorem frameOk_visitBindingIdentifier (opts : Option BundlerOptions) (ctx : ScanCtx)
    (id : BindingIdent) (st : ScanState) :
    FrameOk opts st (visitBindingIdentifier ctx id st) := by
  unfold visitBindingIdentifier
  split
  · exact frameOk_addDeclaredId opts id.symbolId st
  · exact FrameOk.rfl' opts st

theorem frameOk_setCjsModule (opts : Option BundlerOptions) (v : Span) (st : ScanState) :
    FrameOk opts st { st with cjsModuleIdent := optionGetOrInsert st.cjsModuleIdent v } :=
  FrameOk.intro rfl (fun w hw => by simp [optionGetOrInsert, hw]) (fun _ h => h)
    (fun _ hd _ => hd)

theorem frameOk_setCjsExports (opts : Option BundlerOptions) (v : Span) (st : ScanState) :
    FrameOk opts st { st with cjsExportsIdent := optionGetOrInsert st.cjsExportsIdent v } :=
  FrameOk.intro rfl (fun _ h => h) (fun w hw => by simp [optionGetOrInsert, hw])
    (fun _ hd _ => hd)

theorem frameOk_scanAssignmentTarget (opts : Option BundlerOptions) (left : Expr)
    (st : ScanState) : FrameOk opts st (scanAssignmentTarget left st) := by
  unfold scanAssignmentTarget
  split
  · exact frameOk_tryDiagnosticForbidConstAssign _ _ _ _
  · split
    · split
      · split
        · exact FrameOk.trans (frameOk_setCjsModule opts _ _) (frameOk_setCjsExports opts _ _)
        · exact frameOk_setCjsModule opts _ _
      · split
        · exact frameOk_setCjsExports opts _ _
        · exact FrameOk.rfl' _ _
    · split
      · split
        · exact frameOk_setCjsModule opts _ _
        · exact FrameOk.rfl' _ _
      · exact FrameOk.rfl' _ _
    · exact FrameOk.rfl' _ _
  · exact FrameOk.rfl' _ _

theorem frameOk_pushTLA_of_not_silenced (opts : Option BundlerOptions) (fmt : OutputFormat)
    (span : Span) (st : ScanState) (h : tlaSilenced opts = false) :
    FrameOk opts st (pushUnsupportedTopLevelAwait fmt span st) := by
  refine ⟨rfl, fun _ hv => hv, fun _ hv => hv, ?_⟩
  intro hs
  rw [h] at hs
  cases hs

/-- Frame invariant of the top-level-await check in `visit_await_expression`. -/
theorem frameOk_awaitExprCheck (opts : Option BundlerOptions) (topLevel : Bool)
    (span : Span) (st : ScanState) :
    FrameOk opts st (awaitExprCheck opts topLevel span st) := by
  unfold awaitExprCheck
  cases opts with
  | none => exact FrameOk.rfl' _ _
  | some o =>
      show FrameOk (some o) st
        (if !(OutputFormat.keepEsmImportExport o.format) && topLevel then
          pushUnsupportedTopLevelAwait o.format span st
        else st)
      split
      · rename_i hc
        apply frameOk_pushTLA_of_not_silenced
        simp only [tlaSilenced]
        have h1 := (Bool.and_eq_true _ _).mp hc
        simpa using h1.1
      · exact FrameOk.rfl' _ _

/-- Frame invariant of the top-level-await check in `visit_for_of_statement`. -/
theorem frameOk_forOfAwaitCheck (opts : Option BundlerOptions) (isAwait topLevel : Bool)
    (span : Span) (st : ScanState) :
    FrameOk opts st (forOfAwaitCheck opts isAwait topLevel span st) := by
  unfold forOfAwaitCheck
  split
  · cases opts with
    | none => exact FrameOk.rfl' _ _
    | some o =>
        show FrameOk (some o) st
          (if !(OutputFormat.keepEsmImportExport o.format) then
            pushUnsupportedTopLevelAwait o.format span st
          else st)
        split
        · rename_i hc
          apply frameOk_pushTLA_of_not_silenced
          simp only [tlaSilenced]
          simpa using hc
        · exact FrameOk.rfl' _ _
  · exact FrameOk.rfl' _ _

theorem frameOk_classCtxCheck (opts : Option BundlerOptions)
    (classCtx : Option (Nat × List Nat)) (referenceId : Nat) (st : ScanState) :
    FrameOk opts st
      (match classCtx with
       | some (symbolId, ids) =>
           if ids.contains referenceId then insertSelfReferencedClass symbolId st else st
       | none => st) := by
  split
  · split
    · exact frameOk_insertSelfReferencedClass _ _ _
    · exact FrameOk.rfl' _ _
  · exact FrameOk.rfl' _ _

theorem frameOk_scanIdentifierReference (opts : Option BundlerOptions) (ctx : ScanCtx)
    (classCtx : Option (Nat × List Nat)) (binding : Option BindingInfo)
    (referenceId : Nat) (st : ScanState) :
    FrameOk opts st (scanIdentifierReference ctx classCtx binding referenceId st) := by
  unfold scanIdentifierReference
  have h1 : FrameOk opts st
      (match resolveIdentifierToRootSymbol ctx binding with
       | some rootSymbolId => addReferencedSymbol rootSymbolId st
       | none => st) := by
    split
    · exact frameOk_addReferencedSymbol _ _ _
    · exact FrameOk.rfl' _ _
  exact FrameOk.trans h1 (frameOk_classCtxCheck opts classCtx referenceId _)

theorem frameOk_scanEvalCheck (opts : Option BundlerOptions) (ctx : ScanCtx)
    (callee : Expr) (st : ScanState) : FrameOk opts st (scanEvalCheck ctx callee st) := by
  unfold scanEvalCheck
  split
  · split
    · exact frameOk_pushEvalWarning _ _ _
    · exact FrameOk.rfl' _ _
  · exact FrameOk.rfl' _ _

theorem frameOk_scanRequireCall (opts : Option BundlerOptions) (path : List AstKind)
    (callee : Expr) (arguments : List Expr) (span : Span) (st : ScanState) :
    FrameOk opts st (scanRequireCall path callee arguments span st) := by
  unfold scanRequireCall
  split
  · split
    · exact FrameOk.trans (frameOk_addImportRecord _ _ _ _ _ _)
        (frameOk_insertImportSpan _ _ _ _)
    · exact FrameOk.rfl' _ _
  · exact FrameOk.rfl' _ _

theorem frameOk_scanImportExpression (opts : Option BundlerOptions) (source : Expr)
    (span : Span) (st : ScanState) :
    FrameOk opts st (scanImportExpression source span st) := by
  unfold scanImportExpression
  split
  · exact FrameOk.trans (frameOk_addImportRecord _ _ _ _ _ _)
      (frameOk_insertImportSpan _ _ _ _)
  · exact FrameOk.rfl' _ _

mutual

/-- Every expression visit preserves the frame invariant. -/
theorem visitExpr_frameOk (ctx : ScanCtx) (path : List AstKind) (topLevel : Bool)
    (classCtx : Option (Nat × List Nat)) (e : Expr) (st : ScanState) :
    FrameOk ctx.options st (visitExpr ctx path topLevel classCtx e st) := by
  cases e with
  | identRef name span binding referenceId =>
      simp only [visitExpr]
      exact frameOk_scanIdentifierReference _ ctx classCtx binding referenceId st
  | stringLit value span =>
      simp only [visitExpr]
      exact FrameOk.rfl' _ _
  | numberLit span =>
      simp only [visitExpr]
      exact FrameOk.rfl' _ _
  | staticMember object property span =>
      simp only [visitExpr]
      split
      · split
        · exact frameOk_addMemberExprReference _ _ _ _ _
        · exact visitExpr_frameOk ctx _ topLevel classCtx object st
      · exact visitExpr_frameOk ctx _ topLevel classCtx object st
  | computedMember object index span =>
      simp only [visitExpr]
      exact FrameOk.trans (visitExpr_frameOk ctx _ topLevel classCtx object st)
        (visitExpr_frameOk ctx _ topLevel classCtx index _)
  | callExpr callee arguments span =>
      simp only [visitExpr]
      exact FrameOk.trans
        (FrameOk.trans
          (FrameOk.trans (frameOk_scanEvalCheck _ ctx callee st)
            (frameOk_scanRequireCall _ path callee arguments span _))
          (visitExpr_frameOk ctx _ topLevel classCtx callee _))
        (visitExprList_frameOk ctx _ topLevel classCtx arguments _)
  | importExpr source span =>
      simp only [visitExpr]
      exact FrameOk.trans (frameOk_scanImportExpression _ source span st)
        (visitExpr_frameOk ctx _ topLevel classCtx source _)
  | seqExpr first rest span =>
      simp only [visitExpr]
      exact FrameOk.trans (visitExpr_frameOk ctx _ topLevel classCtx first st)
        (visitExprList_frameOk ctx _ topLevel classCtx rest _)
  | parenExpr inner span =>
      simp only [visitExpr]
      exact visitExpr_frameOk ctx _ topLevel classCtx inner st
  | awaitExpr argument span =>
      simp only [visitExpr]
      exact FrameOk.trans (frameOk_awaitExprCheck ctx.options topLevel span st)
        (visitExpr_frameOk ctx _ topLevel classCtx argument _)
  | assignExpr left right span =>
      simp only [visitExpr]
      exact FrameOk.trans
        (FrameOk.trans (frameOk_scanAssignmentTarget _ left st)
          (visitExpr_frameOk ctx _ topLevel classCtx left _))
        (visitExpr_frameOk ctx _ topLevel classCtx right _)
  | funcExpr body span =>
      simp only [visitExpr]
      exact visitStmtList_frameOk ctx _ false classCtx body st

/-- Every expression-list walk preserves the frame invariant. -/
theorem visitExprList_frameOk (ctx : ScanCtx) (path : List AstKind) (topLevel : Bool)
    (classCtx : Option (Nat × List Nat)) (es : List Expr) (st : ScanState) :
    FrameOk ctx.options st (visitExprList ctx path topLevel classCtx es st) := by
  cases es with
  | nil =>
      simp only [visitExprList]
      exact FrameOk.rfl' _ _
  | cons e rest =>
      simp only [visitExprList]
      exact FrameOk.trans (visitExpr_frameOk ctx path topLevel classCtx e st)
        (visitExprList_frameOk ctx path topLevel classCtx rest _)

/-- Every statement visit preserves the frame invariant. -/
theorem visitStmt_frameOk (ctx : ScanCtx) (path : List AstKind) (topLevel : Bool)
    (classCtx : Option (Nat × List Nat)) (s : Stmt) (st : ScanState) :
    FrameOk ctx.options st (visitStmt ctx path topLevel classCtx s st) := by
  cases s with
  | exprStmt e span =>
      simp only [visitStmt]
      exact visitExpr_frameOk ctx _ topLevel classCtx e st
  | varDecl declarations span =>
      simp only [visitStmt]
      exact visitDeclaratorList_frameOk ctx _ topLevel classCtx declarations st
  | classDecl id body span =>
      simp only [visitStmt]
      refine FrameOk.trans ?_ (visitClassElemList_frameOk ctx _ topLevel classCtx body _)
      cases id with
      | some bid =>
          refine FrameOk.trans ?_ (frameOk_visitBindingIdentifier _ ctx bid _)
          exact FrameOk.trans (frameOk_visitBindingIdentifier _ ctx bid _)
            (visitClassElemList_frameOk ctx _ topLevel _ body _)
      | none => exact FrameOk.rfl' _ _
  | forOfStmt isAwait right body span =>
      simp only [visitStmt]
      exact FrameOk.trans
        (FrameOk.trans (frameOk_forOfAwaitCheck ctx.options isAwait topLevel span st)
          (visitExpr_frameOk ctx _ topLevel classCtx right _))
        (visitStmt_frameOk ctx _ topLevel classCtx body _)
  | importDecl request requestSpan importedSymbols span =>
      simp only [visitStmt]
      exact frameOk_scanModuleDecl _ request requestSpan importedSymbols st

/-- Every statement-list walk preserves the frame invariant. -/
theorem visitStmtList_frameOk (ctx : ScanCtx) (path : List AstKind) (topLevel : Bool)
    (classCtx : Option (Nat × List Nat)) (ss : List Stmt) (st : ScanState) :
    FrameOk ctx.options st (visitStmtList ctx path topLevel classCtx ss st) := by
  cases ss with
  | nil =>
      simp only [visitStmtList]
      exact FrameOk.rfl' _ _
  | cons s rest =>
      simp only [visitStmtList]
      exact FrameOk.trans (visitStmt_frameOk ctx path topLevel classCtx s st)
        (visitStmtList_frameOk ctx path topLevel classCtx rest _)

/-- Every declarator-list walk preserves the frame invariant. -/
theorem visitDeclaratorList_frameOk (ctx : ScanCtx) (path : List AstKind) (topLevel : Bool)
    (classCtx : Option (Nat × List Nat)) (ds : List Declarator) (st : ScanState) :
    FrameOk ctx.options st (visitDeclaratorList ctx path topLevel classCtx ds st) := by
  cases ds with
  | nil =>
      simp only [visitDeclaratorList]
      exact FrameOk.rfl' _ _
  | cons d rest =>
      cases d with
      | mk id init =>
          cases init with
          | some e =>
              simp only [visitDeclaratorList]
              exact FrameOk.trans
                (FrameOk.trans (frameOk_visitBindingIdentifier _ ctx id st)
                  (visitExpr_frameOk ctx _ topLevel classCtx e _))
                (visitDeclaratorList_frameOk ctx path topLevel classCtx rest _)
          | none =>
              simp only [visitDeclaratorList]
              exact FrameOk.trans (frameOk_visitBindingIdentifier _ ctx id st)
                (visitDeclaratorList_frameOk ctx path topLevel classCtx rest _)

/-- Every class-body walk preserves the frame invariant. -/
theorem visitClassElemList_frameOk (ctx : ScanCtx) (path : List AstKind) (topLevel : Bool)
    (classCtx : Option (Nat × List Nat)) (es : List ClassElem) (st : ScanState) :
    FrameOk ctx.options st (visitClassElemList ctx path topLevel classCtx es st) := by
  cases es with
  | nil =>
      simp only [visitClassElemList]
      exact FrameOk.rfl' _ _
  | cons e rest =>
      cases e with
      | propertyDef value span =>
          cases value with
          | some v =>
              simp only [visitClassElemList]
              exact FrameOk.trans (visitExpr_frameOk ctx _ false classCtx v st)
                (visitClassElemList_frameOk ctx path topLevel classCtx rest _)
          | none =>
              simp only [visitClassElemList]
              exact visitClassElemList_frameOk ctx path topLevel classCtx rest st
      | methodDef body span =>
          simp only [visitClassElemList]
          exact FrameOk.trans (visitStmtList_frameOk ctx _ false classCtx body st)
            (visitClassElemList_frameOk ctx path topLevel classCtx rest _)

end

/-!
Lifting the frame invariant over the `visit_program` statement loop.
-/

/-- The committed statement infos carry exactly the consecutive indices
assigned by the loop: the statement traversal never touches `stmt_idx`. -/
theorem visitProgramLoop_map_stmtIdx (ctx : ScanCtx) (detect : Stmt → Bool)
    (stmts : List Stmt) : ∀ (idx : Nat) (st : ScanState) (infos : List StmtInfo),
    (visitProgramLoop ctx detect stmts idx st infos).2.map (fun i => i.stmtIdx)
      = infos.map (fun i => i.stmtIdx) ++ (List.range' idx stmts.length).map some := by
  induction stmts with
  | nil =>
      intro idx st infos
      simp [visitProgramLoop]
  | cons s rest ih =>
      intro idx st infos
      rw [visitProgramLoop, ih]
      have hidx :
          (visitStmt ctx [] true none s
            (loopEnterStmt detect idx s st)).curStmtInfo.stmtIdx = some idx :=
        (visitStmt_frameOk ctx [] true none s _).1
      simp [hidx, List.range'_succ]

/-- Once a statement loop starts from a state whose error list contains no
top-level-await diagnostics, and the configuration silences them, the final
error list contains none either. -/
theorem visitProgramLoop_tla (ctx : ScanCtx) (detect : Stmt → Bool) (stmts : List Stmt)
    (hs : tlaSilenced ctx.options = true) :
    ∀ (idx : Nat) (st : ScanState) (infos : List StmtInfo) (d : Diagnostic),
    d ∈ (visitProgramLoop ctx detect stmts idx st infos).1.errors →
    d.isTopLevelAwaitError = true → d ∈ st.errors := by
  induction stmts with
  | nil =>
      intro idx st infos d hd _
      simpa [visitProgramLoop] using hd
  | cons s rest ih =>
      intro idx st infos d hd ht
      rw [visitProgramLoop] at hd
      have h1 := ih (idx + 1) _ _ d hd ht
      have h2 := (visitStmt_frameOk ctx [] true none s (loopEnterStmt detect idx s st)).2.2.2
      exact h2 hs d h1 ht

/-- Once the CJS `module.exports` marker is set, the rest of the statement
loop keeps it unchanged. -/
theorem visitProgramLoop_cjsModule (ctx : ScanCtx) (detect : Stmt → Bool)
    (stmts : List Stmt) : ∀ (idx : Nat) (st : ScanState) (infos : List StmtInfo) (v : Span),
    st.cjsModuleIdent = some v →
    (visitProgramLoop ctx detect stmts idx st infos).1.cjsModuleIdent = some v := by
  induction stmts with
  | nil =>
      intro idx st infos v hv
      simpa [visitProgramLoop] using hv
  | cons s rest ih =>
      intro idx st infos v hv
      rw [visitProgramLoop]
      refine ih (idx + 1) _ _ v ?_
      exact (visitStmt_frameOk ctx [] true none s (loopEnterStmt detect idx s st)).2.1 v hv

/-- Once the CJS `exports` marker is set, the rest of the statement loop
keeps it unchanged. -/
theorem visitProgramLoop_cjsExports (ctx : ScanCtx) (detect : Stmt → Bool)
    (stmts : List Stmt) : ∀ (idx : Nat) (st : ScanState) (infos : List StmtInfo) (v : Span),
    st.cjsExportsIdent = some v →
    (visitProgramLoop ctx detect stmts idx st infos).1.cjsExportsIdent = some v := by
  induction stmts with
  | nil =>
      intro idx st infos v hv
      simpa [visitProgramLoop] using hv
  | cons s rest ih =>
      intro idx st infos v hv
      rw [visitProgramLoop]
      refine ih (idx + 1) _ _ v ?_
      exact (visitStmt_frameOk ctx [] true none s (loopEnterStmt detect idx s st)).2.2.1 v hv


/-- C1: every import site (static import, dynamic `import()` with a literal
source, global `require()` with a literal request) should create exactly one
ImportRecord — in particular a require site inside a named class declaration
should yield one record, not two. The code walks a named class's body twice
(`scan_class_declaration` walks it, then `walk_declaration` walks the same
class again), so such a site yields TWO records; top-level require and
dynamic-import sites yield exactly one. -/
theorem c1_import_record_per_site :
    (visitProgram ctxNoOptions (fun _ => true) requireStatementProgram).state.importRecords.length = 1 ∧
    (visitProgram ctxNoOptions (fun _ => true) dynamicImportProgram).state.importRecords.length = 1 ∧
    (visitProgram ctxNoOptions (fun _ => true) requireInClassProgram).state.importRecords =
      [⟨"foo", .require, ⟨29, 34⟩, ⟨false, false⟩⟩,
       ⟨"foo", .require, ⟨29, 34⟩, ⟨false, false⟩⟩] := by
  refine ⟨?_, ?_, ?_⟩ <;> decide

/-- C2 counterexample: for `(1, require("x"));` the claim says the record's
meta does NOT include IsRequireUnused, but the scan sets it: the
expression-statement ancestor inserts the flag unconditionally. -/
theorem c2_counterexample :
    ((visitProgram ctxNoOptions (fun _ => true) seqLastRequireProgram).state.importRecords.map
      (fun r => r.meta.isRequireUnused)) = [true] := by
  decide

/-- C2 (amended): for a global require call with a non-empty-span literal
request inside a sequence: `(require("x"), 1);` gets IsRequireUnused, and so
does `(1, require("x"));` — the walk's expression-statement ancestor inserts
the flag unconditionally, regardless of the usage flag computed by the
sequence arm; the sequence arm only recomputes the usage flag from whether
the last operand's span contains the call's span and continues outward;
parenthesization is skipped; any other ancestor kind stops the walk with no
flag inserted exactly when the usage flag currently says used. -/
theorem c2_require_sequence_usage :
    ((visitProgram ctxNoOptions (fun _ => true) seqFirstRequireProgram).state.importRecords.map
      (fun r => r.meta.isRequireUnused)) = [true] ∧
    ((visitProgram ctxNoOptions (fun _ => true) seqLastRequireProgram).state.importRecords.map
      (fun r => r.meta.isRequireUnused)) = [true] ∧
    (∀ (s : Span) (rest : List AstKind) (callSpan : Span) (u : Bool),
      requireUnusedWalk callSpan (.expressionStatement s :: rest) u = true) ∧
    (∀ (s : Span) (rest : List AstKind) (callSpan : Span) (u : Bool),
      requireUnusedWalk callSpan (.parenthesizedExpression s :: rest) u
        = requireUnusedWalk callSpan rest u) ∧
    (∀ (first : Expr) (restE : List Expr) (s : Span) (rest : List AstKind)
        (callSpan : Span) (u : Bool),
      requireUnusedWalk callSpan (.sequenceExpression first restE s :: rest) u
        = requireUnusedWalk callSpan rest
            (if !(Span.is_empty (Expr.span ((first :: restE).getLast (List.cons_ne_nil _ _))))
                && !(Span.is_empty callSpan) then
              Span.contains_inclusive
                (Expr.span ((first :: restE).getLast (List.cons_ne_nil _ _))) callSpan
            else true)) ∧
    (∀ (t : String) (rest : List AstKind) (callSpan : Span),
      requireUnusedWalk callSpan (.otherKind t :: rest) true = false) := by
  refine ⟨by decide, by decide, ?_, ?_, ?_, ?_⟩
  · intro s rest callSpan u
    rfl
  · intro s rest callSpan u
    rfl
  · intro first restE s rest callSpan u
    rfl
  · intro t rest callSpan
    rfl

/-- C3 counterexample: `eval` bound in a nested (non-root) scope and called
there — the claim says neither `has_eval` nor a warning should be produced,
but the scan sets the flag and appends a warning, because the check uses
root-symbol resolution rather than the is-global-reference test. -/
theorem c3_counterexample :
    (visitProgram ctxNoOptions (fun _ => true) evalNestedProgram).state.hasEval = true ∧
    (visitProgram ctxNoOptions (fun _ => true) evalNestedProgram).state.warnings =
      [.evalWarning ⟨43, 47⟩] := by
  refine ⟨?_, ?_⟩ <;> decide

/-- C3 (amended): calling `eval(x)` where `eval` is never declared sets
`has_eval` and appends exactly one warning at the callee's span; a
root-scope local binding of `eval` suppresses both; but the check behaves as
resolve-to-root-symbol, not as is-global-reference, so a binding of `eval`
in a nested (non-root) scope does not suppress them — calling that `eval`
still sets the flag and appends one warning. -/
theorem c3_eval_detection :
    ((visitProgram ctxNoOptions (fun _ => true) evalGlobalProgram).state.hasEval = true ∧
     (visitProgram ctxNoOptions (fun _ => true) evalGlobalProgram).state.warnings =
       [.evalWarning ⟨0, 4⟩]) ∧
    ((visitProgram ctxNoOptions (fun _ => true) evalRootProgram).state.hasEval = false ∧
     (visitProgram ctxNoOptions (fun _ => true) evalRootProgram).state.warnings = []) ∧
    ((visitProgram ctxNoOptions (fun _ => true) evalNestedProgram).state.hasEval = true ∧
     (visitProgram ctxNoOptions (fun _ => true) evalNestedProgram).state.warnings.length = 1) := by
  refine ⟨⟨?_, ?_⟩, ⟨?_, ?_⟩, ⟨?_, ?_⟩⟩ <;> decide

/-- C8: a global `require("x")` call forming a standalone expression
statement (also behind parentheses) gets a record with IsRequireUnused; the
same call as the initializer of `const y = require("x")` gets a record
without it; an empty-span request is marked IsUnspannedImport and no usage
analysis runs. -/
theorem c8_require_usage :
    (visitProgram ctxNoOptions (fun _ => true) requireStatementProgram).state.importRecords =
      [⟨"x", .require, ⟨8, 11⟩, ⟨false, true⟩⟩] ∧
    (visitProgram ctxNoOptions (fun _ => true) requireParenProgram).state.importRecords =
      [⟨"x", .require, ⟨9, 12⟩, ⟨false, true⟩⟩] ∧
    (visitProgram ctxNoOptions (fun _ => true) requireAssignedProgram).state.importRecords =
      [⟨"x", .require, ⟨18, 21⟩, ⟨false, false⟩⟩] ∧
    (visitProgram ctxNoOptions (fun _ => true) requireUnspannedProgram).state.importRecords =
      [⟨"x", .require, ⟨8, 8⟩, ⟨true, false⟩⟩] := by
  refine ⟨?_, ?_, ?_, ?_⟩ <;> decide


/-- C4: an assignment to `module.exports` (or `module.exports.<prop>`) with
`module` an unshadowed global sets the CJS module marker to exactly the
6-character span at the identifier's start, first occurrence only; a local
binding named `module` leaves the state untouched; the `exports` marker is
set analogously (7-character span) at most once under the same
global-reference condition; and once set, a marker survives the rest of the
scan unchanged. -/
theorem c4_cjs_markers :
    (∀ (idSpan pspan : Span) (rid : Nat) (st : ScanState),
      st.cjsModuleIdent = none →
      (scanAssignmentTarget
        (.staticMember (.identRef "module" idSpan none rid) "exports" pspan)
        st).cjsModuleIdent = some (Span.mk idSpan.start (idSpan.start + 6))) ∧
    (∀ (idSpan pspan : Span) (rid : Nat) (st : ScanState) (v : Span),
      st.cjsModuleIdent = some v →
      (scanAssignmentTarget
        (.staticMember (.identRef "module" idSpan none rid) "exports" pspan)
        st).cjsModuleIdent = some v) ∧
    (∀ (idSpan pspan p2span : Span) (rid : Nat) (prop : String) (st : ScanState),
      st.cjsModuleIdent = none →
      (scanAssignmentTarget
        (.staticMember
          (.staticMember (.identRef "module" idSpan none rid) "exports" pspan)
          prop p2span)
        st).cjsModuleIdent = some (Span.mk idSpan.start (idSpan.start + 6))) ∧
    (∀ (idSpan pspan : Span) (rid : Nat) (b : BindingInfo) (prop : String) (st : ScanState),
      scanAssignmentTarget
        (.staticMember (.identRef "module" idSpan (some b) rid) prop pspan) st = st) ∧
    (∀ (idSpan pspan : Span) (rid : Nat) (prop : String) (st : ScanState),
      st.cjsExportsIdent = none →
      (scanAssignmentTarget
        (.staticMember (.identRef "exports" idSpan none rid) prop pspan)
        st).cjsExportsIdent = some (Span.mk idSpan.start (idSpan.start + 7))) ∧
    (∀ (idSpan pspan : Span) (rid : Nat) (prop : String) (st : ScanState) (v : Span),
      st.cjsExportsIdent = some v →
      (scanAssignmentTarget
        (.staticMember (.identRef "exports" idSpan none rid) prop pspan)
        st).cjsExportsIdent = some v) ∧
    (∀ (idSpan pspan : Span) (rid : Nat) (b : BindingInfo) (prop : String) (st : ScanState),
      scanAssignmentTarget
        (.staticMember (.identRef "exports" idSpan (some b) rid) prop pspan) st = st) ∧
    (∀ (ctx : ScanCtx) (detect : Stmt → Bool) (stmts : List Stmt) (idx : Nat)
        (st : ScanState) (infos : List StmtInfo) (v : Span),
      st.cjsModuleIdent = some v →
      (visitProgramLoop ctx detect stmts idx st infos).1.cjsModuleIdent = some v) ∧
    (∀ (ctx : ScanCtx) (detect : Stmt → Bool) (stmts : List Stmt) (idx : Nat)
        (st : ScanState) (infos : List StmtInfo) (v : Span),
      st.cjsExportsIdent = some v →
      (visitProgramLoop ctx detect stmts idx st infos).1.cjsExportsIdent = some v) ∧
    (visitProgram ctxNoOptions (fun _ => true) cjsModuleProgram).state.cjsModuleIdent
      = some ⟨0, 6⟩ ∧
    (visitProgram ctxNoOptions (fun _ => true) cjsShadowProgram).state.cjsModuleIdent
      = none := by
  refine ⟨?_, ?_, ?_, ?_, ?_, ?_, ?_, ?_, ?_, ?_, ?_⟩
  · intro idSpan pspan rid st h
    simp [scanAssignmentTarget, isGlobalIdentifierReference, optionGetOrInsert, h]
  · intro idSpan pspan rid st v h
    simp [scanAssignmentTarget, isGlobalIdentifierReference, optionGetOrInsert, h]
  · intro idSpan pspan p2span rid prop st h
    simp [scanAssignmentTarget, isGlobalIdentifierReference, optionGetOrInsert, h]
  · intro idSpan pspan rid b prop st
    simp [scanAssignmentTarget, isGlobalIdentifierReference]
  · intro idSpan pspan rid prop st h
    simp [scanAssignmentTarget, isGlobalIdentifierReference, optionGetOrInsert, h]
  · intro idSpan pspan rid prop st v h
    simp [scanAssignmentTarget, isGlobalIdentifierReference, optionGetOrInsert, h]
  · intro idSpan pspan rid b prop st
    simp [scanAssignmentTarget, isGlobalIdentifierReference]
  · exact fun ctx detect stmts idx st infos v h =>
      visitProgramLoop_cjsModule ctx detect stmts idx st infos v h
  · exact fun ctx detect stmts idx st infos v h =>
      visitProgramLoop_cjsExports ctx detect stmts idx st infos v h
  · decide
  · decide

/-- C4 witness: the theorem applied at concrete inputs — the marker is set to
the 6-character span on a fresh state, kept once set, and not set past a
shadowing binding. -/
theorem c4_cjs_markers_witness :
    (scanAssignmentTarget
      (.staticMember (.identRef "module" ⟨0, 6⟩ none 0) "exports" ⟨0, 14⟩)
      initialScanState).cjsModuleIdent = some (Span.mk 0 6) ∧
    (scanAssignmentTarget
      (.staticMember (.identRef "module" ⟨20, 26⟩ none 0) "exports" ⟨20, 34⟩)
      { initialScanState with cjsModuleIdent := some ⟨0, 6⟩ }).cjsModuleIdent
      = some ⟨0, 6⟩ ∧
    scanAssignmentTarget
      (.staticMember (.identRef "module" ⟨0, 6⟩ (some ⟨1, false⟩) 0) "exports" ⟨0, 14⟩)
      initialScanState = initialScanState ∧
    (visitProgramLoop ctxNoOptions (fun _ => true) [] 0
      { initialScanState with cjsModuleIdent := some ⟨0, 6⟩ } []).1.cjsModuleIdent
      = some ⟨0, 6⟩ :=
  ⟨c4_cjs_markers.1 ⟨0, 6⟩ ⟨0, 14⟩ 0 initialScanState rfl,
   c4_cjs_markers.2.1 ⟨20, 26⟩ ⟨20, 34⟩ 0 _ ⟨0, 6⟩ rfl,
   c4_cjs_markers.2.2.2.1 ⟨0, 6⟩ ⟨0, 14⟩ 0 ⟨1, false⟩ "exports" initialScanState,
   c4_cjs_markers.2.2.2.2.2.2.2.1 ctxNoOptions (fun _ => true) [] 0 _ [] ⟨0, 6⟩ rfl⟩

/-- C5: after the scan, the StmtInfo list has exactly one entry per
top-level statement, committed in source order, the i-th carrying index i;
the scan is a pure function, so no entry changes afterwards. -/
theorem c5_stmt_infos_indices (ctx : ScanCtx) (detect : Stmt → Bool) (program : Program) :
    (visitProgram ctx detect program).stmtInfos.map (fun i => i.stmtIdx)
      = (List.range program.body.length).map some := by
  unfold visitProgram
  rw [visitProgramLoop_map_stmtIdx]
  simp [List.range_eq_range']


/-- C6 counterexample: on `ns.a.b` with `ns` a named import and an
empty-span full expression, the claim says no member-access path is
recorded, but the scan bails on the full chain only and then walks into the
object, recording the path `[a]` for the spanned inner access `ns.a`. -/
theorem c6_counterexample :
    (visitProgram ctxNoOptions (fun _ => true) memberUnspannedProgram).state.memberExprRefs =
      [⟨1, ["a"], ⟨25, 29⟩⟩] := by
  decide

/-- C6 (amended): for a static chain `ns.a.b` whose root `ns` resolves to a
named-import root symbol: when the full expression span is non-empty,
exactly one member-access path fact `[a, b]` is recorded for the full chain
and the traversal does not descend (the state change is exactly the one
appended fact); when `ns` is a root-scope local that is not a named import,
no fact is recorded — the walk descends and only records `ns` as a
referenced symbol; when the full expression span is empty, no fact is
recorded for the full chain, but the walk descends into the object and
records the sub-chain fact `[a]` whenever the inner access has a non-empty
span and the same named-import root. -/
theorem c6_member_access_paths :
    (∀ (ctx : ScanCtx) (path : List AstKind) (topLevel : Bool)
        (classCtx : Option (Nat × List Nat)) (ns a b : String) (nsSpan s1 s2 : Span)
        (sym rid : Nat) (c : Bool) (st : ScanState),
      ctx.isRootSymbol sym = true →
      st.namedImports.contains sym = true →
      Span.is_empty s2 = false →
      visitExpr ctx path topLevel classCtx
        (.staticMember (.staticMember (.identRef ns nsSpan (some ⟨sym, c⟩) rid) a s1) b s2)
        st
        = addMemberExprReference sym [a, b] s2 st) ∧
    (∀ (ctx : ScanCtx) (path : List AstKind) (topLevel : Bool) (ns a b : String)
        (nsSpan s1 s2 : Span) (sym rid : Nat) (c : Bool) (st : ScanState),
      ctx.isRootSymbol sym = true →
      st.namedImports.contains sym = false →
      visitExpr ctx path topLevel none
        (.staticMember (.staticMember (.identRef ns nsSpan (some ⟨sym, c⟩) rid) a s1) b s2)
        st
        = addReferencedSymbol sym st) ∧
    (∀ (ctx : ScanCtx) (path : List AstKind) (topLevel : Bool)
        (classCtx : Option (Nat × List Nat)) (ns a b : String) (nsSpan s1 s2 : Span)
        (sym rid : Nat) (c : Bool) (st : ScanState),
      ctx.isRootSymbol sym = true →
      st.namedImports.contains sym = true →
      Span.is_empty s2 = true →
      Span.is_empty s1 = false →
      visitExpr ctx path topLevel classCtx
        (.staticMember (.staticMember (.identRef ns nsSpan (some ⟨sym, c⟩) rid) a s1) b s2)
        st
        = addMemberExprReference sym [a] s1 st) := by
  refine ⟨?_, ?_, ?_⟩
  · intro ctx path topLevel classCtx ns a b nsSpan s1 s2 sym rid c st hroot hmem hspan
    have hmem' : sym ∈ st.namedImports := by simpa using hmem
    simp [visitExpr, memberExprChain, resolveIdentifierToRootSymbol, Span.isUnspanned,
      hroot, hmem', hspan]
  · intro ctx path topLevel ns a b nsSpan s1 s2 sym rid c st hroot hmem
    have hmem' : sym ∉ st.namedImports := by simpa using hmem
    simp [visitExpr, memberExprChain, resolveIdentifierToRootSymbol, Span.isUnspanned,
      scanIdentifierReference, hroot, hmem']
  · intro ctx path topLevel classCtx ns a b nsSpan s1 s2 sym rid c st hroot hmem hs2 hs1
    have hmem' : sym ∈ st.namedImports := by simpa using hmem
    simp [visitExpr, memberExprChain, resolveIdentifierToRootSymbol, Span.isUnspanned,
      hroot, hmem', hs2, hs1]

/-- C6 witness: the amended theorem applied at concrete inputs — a spanned
chain records exactly the `[a, b]` fact, a non-import root records none,
an unspanned outer chain records the inner `[a]` fact. -/
theorem c6_member_access_paths_witness :
    visitExpr ctxNoOptions [] true none
      (.staticMember (.staticMember (.identRef "ns" ⟨25, 27⟩ (some ⟨1, false⟩) 0)
        "a" ⟨25, 29⟩) "b" ⟨25, 31⟩)
      { initialScanState with namedImports := [1] }
      = addMemberExprReference 1 ["a", "b"] ⟨25, 31⟩
          { initialScanState with namedImports := [1] } ∧
    visitExpr ctxNoOptions [] true none
      (.staticMember (.staticMember (.identRef "ns" ⟨25, 27⟩ (some ⟨1, false⟩) 0)
        "a" ⟨25, 29⟩) "b" ⟨25, 31⟩) initialScanState
      = addReferencedSymbol 1 initialScanState ∧
    visitExpr ctxNoOptions [] true none
      (.staticMember (.staticMember (.identRef "ns" ⟨25, 27⟩ (some ⟨1, false⟩) 0)
        "a" ⟨25, 29⟩) "b" ⟨30, 30⟩)
      { initialScanState with namedImports := [1] }
      = addMemberExprReference 1 ["a"] ⟨25, 29⟩
          { initialScanState with namedImports := [1] } :=
  ⟨c6_member_access_paths.1 ctxNoOptions [] true none "ns" "a" "b" ⟨25, 27⟩ ⟨25, 29⟩
      ⟨25, 31⟩ 1 0 false _ (by decide) (by decide) (by decide),
   c6_member_access_paths.2.1 ctxNoOptions [] true "ns" "a" "b" ⟨25, 27⟩ ⟨25, 29⟩
      ⟨25, 31⟩ 1 0 false _ (by decide) (by decide),
   c6_member_access_paths.2.2 ctxNoOptions [] true none "ns" "a" "b" ⟨25, 27⟩ ⟨25, 29⟩
      ⟨30, 30⟩ 1 0 false _ (by decide) (by decide) (by decide) (by decide)⟩

/-- C7: a top-level await expression (or for-await-of) under a format that
does not preserve ESM syntax appends exactly one error naming that format,
and the scan still completes; under a format that preserves ESM syntax the
error list of any scan contains no top-level-await diagnostic at all. The
error is a recorded diagnostic, never control flow: the scan is total. -/
theorem c7_top_level_await :
    (∀ (o : BundlerOptions), OutputFormat.keepEsmImportExport o.format = false →
      ∀ (isRoot : Nat → Bool) (refs : Nat → List Nat) (detect : Stmt → Bool)
        (s1 s2 s3 : Span),
      (visitProgram ⟨some o, isRoot, refs⟩ detect
        ⟨[.exprStmt (.awaitExpr (.numberLit s1) s2) s3], none⟩).state.errors
        = [.unsupportedTopLevelAwait o.format s2] ∧
      (visitProgram ⟨some o, isRoot, refs⟩ detect
        ⟨[.exprStmt (.awaitExpr (.numberLit s1) s2) s3], none⟩).stmtInfos.length = 1) ∧
    (∀ (o : BundlerOptions), OutputFormat.keepEsmImportExport o.format = false →
      ∀ (isRoot : Nat → Bool) (refs : Nat → List Nat) (detect : Stmt → Bool)
        (s1 s2 s4 s5 : Span),
      (visitProgram ⟨some o, isRoot, refs⟩ detect
        ⟨[.forOfStmt true (.numberLit s1) (.exprStmt (.numberLit s4) s5) s2], none⟩).state.errors
        = [.unsupportedTopLevelAwait o.format s2]) ∧
    (∀ (o : BundlerOptions), OutputFormat.keepEsmImportExport o.format = true →
      ∀ (isRoot : Nat → Bool) (refs : Nat → List Nat) (detect : Stmt → Bool)
        (program : Program),
      ((visitProgram ⟨some o, isRoot, refs⟩ detect program).state.errors.filter
        (fun d => d.isTopLevelAwaitError)) = []) := by
  refine ⟨?_, ?_, ?_⟩
  · intro o h isRoot refs detect s1 s2 s3
    constructor
    · simp [visitProgram, visitProgramLoop, loopEnterStmt, visitStmt, visitExpr,
        awaitExprCheck, h, pushUnsupportedTopLevelAwait, initialScanState]
    · simp [visitProgram, visitProgramLoop, loopEnterStmt, visitStmt, visitExpr,
        awaitExprCheck, h, pushUnsupportedTopLevelAwait, initialScanState]
  · intro o h isRoot refs detect s1 s2 s4 s5
    simp [visitProgram, visitProgramLoop, loopEnterStmt, visitStmt, visitExpr,
      forOfAwaitCheck, h, pushUnsupportedTopLevelAwait, initialScanState]
  · intro o h isRoot refs detect program
    apply List.filter_eq_nil_iff.mpr
    intro d hd hp
    have hmem : d ∈ (visitProgramLoop ⟨some o, isRoot, refs⟩ detect program.body 0
        initialScanState []).1.errors := by
      simpa [visitProgram] using hd
    have hfin := visitProgramLoop_tla ⟨some o, isRoot, refs⟩ detect program.body
      (by simpa [tlaSilenced] using h) 0 initialScanState [] d hmem hp
    simp [initialScanState] at hfin

/-- C7 witness: the theorem applied with the `cjs` format (which does not
preserve ESM syntax) on a concrete top-level await, and with the `esm`
format (which does) on a concrete program. -/
theorem c7_top_level_await_witness :
    (visitProgram ⟨some ⟨.cjs⟩, fun _ => true, fun _ => []⟩ (fun _ => true)
      ⟨[.exprStmt (.awaitExpr (.numberLit ⟨6, 7⟩) ⟨0, 7⟩) ⟨0, 8⟩], none⟩).state.errors
      = [.unsupportedTopLevelAwait .cjs ⟨0, 7⟩] ∧
    (visitProgram ⟨some ⟨.cjs⟩, fun _ => true, fun _ => []⟩ (fun _ => true)
      ⟨[.forOfStmt true (.numberLit ⟨20, 21⟩) (.exprStmt (.numberLit ⟨25, 26⟩) ⟨25, 27⟩)
        ⟨0, 28⟩], none⟩).state.errors
      = [.unsupportedTopLevelAwait .cjs ⟨0, 28⟩] ∧
    ((visitProgram ⟨some ⟨.esm⟩, fun _ => true, fun _ => []⟩ (fun _ => true)
      ⟨[.exprStmt (.awaitExpr (.numberLit ⟨6, 7⟩) ⟨0, 7⟩) ⟨0, 8⟩], none⟩).state.errors.filter
        (fun d => d.isTopLevelAwaitError)) = [] :=
  ⟨(c7_top_level_await.1 ⟨.cjs⟩ rfl (fun _ => true) (fun _ => []) (fun _ => true)
      ⟨6, 7⟩ ⟨0, 7⟩ ⟨0, 8⟩).1,
   c7_top_level_await.2.1 ⟨.cjs⟩ rfl (fun _ => true) (fun _ => []) (fun _ => true)
      ⟨20, 21⟩ ⟨0, 28⟩ ⟨25, 26⟩ ⟨25, 27⟩,
   c7_top_level_await.2.2 ⟨.esm⟩ rfl (fun _ => true) (fun _ => []) (fun _ => true)
      ⟨[.exprStmt (.awaitExpr (.numberLit ⟨6, 7⟩) ⟨0, 7⟩) ⟨0, 8⟩], none⟩⟩


/-- C9: the Semantic Preprocessor's build aborts exactly when the
syntax-transform stage runs (the parse type is not plain JS) and reports at
least one error-severity diagnostic; warning-severity transform diagnostics
are filtered out and never abort; nothing else in the pipeline fails. -/
theorem c9_preprocess_abort_iff (oracle : PreProcessOracle) (parseType : OxcParseType)
    (replaceGlobalDefineConfigured injectIsEmpty treeshakeEnabled : Bool) :
    exceptIsError (preProcessEcmaAstBuild oracle parseType replaceGlobalDefineConfigured
        injectIsEmpty treeshakeEnabled)
      = (decide (parseType ≠ OxcParseType.js)
          && !(oracle.transformerRet.errors.filter
                (fun item => item.severity == Severity.error)).isEmpty) := by
  unfold preProcessEcmaAstBuild
  by_cases hjs : parseType = OxcParseType.js
  · subst hjs
    simp [exceptIsError]
  · by_cases he : (oracle.transformerRet.errors.filter
        (fun item => item.severity == Severity.error)).isEmpty
    · simp [hjs, he, exceptIsError]
    · simp [hjs, he, exceptIsError]

/-- C10: when the scanner is built without bundler options, no
top-level-await (or for-await) diagnostic is ever produced, for any module
content — the validation is silently skipped. -/
theorem c10_no_options_no_tla (isRoot : Nat → Bool) (refs : Nat → List Nat)
    (detect : Stmt → Bool) (program : Program) :
    ((visitProgram ⟨none, isRoot, refs⟩ detect program).state.errors.filter
      (fun d => d.isTopLevelAwaitError)) = [] := by
  apply List.filter_eq_nil_iff.mpr
  intro d hd hp
  have hmem : d ∈ (visitProgramLoop ⟨none, isRoot, refs⟩ detect program.body 0
      initialScanState []).1.errors := by
    simpa [visitProgram] using hd
  have hfin := visitProgramLoop_tla ⟨none, isRoot, refs⟩ detect program.body rfl 0
    initialScanState [] d hmem hp
  simp [initialScanState] at hfin

end Rolldown
